import Mathlib

/-
Verification development for the uav_control repository.

Shallow embedding of:
  - src/open_loop_control/src/translation_control.py
      (StaticTransforms, get_lenu_velocity, TranslationController.execute_maneuver,
       run_streaming, state_cb, s_man, line_man, par_man, Constants)
  - src/communication_pipeline/src/dispatcher.py
      (Dispatcher.velocity_command_callback, _VELOCITY_COMMAND_LIMIT)

Modelling conventions:
  - Python floats are modelled as exact rationals (and, for the one claim about
    an integral, as reals); float rounding is abstracted away.
  - A geometry_msgs Twist message is modelled by its linear part, a Vec3; the
    constructor Twist() yields the zero vector.
  - Python exceptions are modelled by the PyError type; a function that can
    raise returns Except PyError.
  - The reflective getattr-based matrix lookup of StaticTransforms is modelled
    by R_lookup, a string-keyed finite map holding exactly the class attributes
    R_x2y that translation_control.py defines.
  - tf.transformations.rotation_matrix(pi, (1,0,0)) is the exact 180-degree
    rotation about the x axis (sine of pi is exactly zero in the real model);
    only the top-left 3x3 block of the homogeneous 4x4 matrices ever acts on the
    3-vectors (they are padded with a trailing 0 before multiplication), so
    matrices are modelled as 3x3.
-/

/-- Three-component vector of rationals; models a 3D velocity vector
(geometry_msgs Twist linear part, or a python list of three floats). -/
structure Vec3 where
  x : ℚ
  y : ℚ
  z : ℚ
  deriving DecidableEq, Repr

/-- Twist() constructs a zero message: the zero velocity vector. -/
def zeroVec : Vec3 := ⟨0, 0, 0⟩

/-- Squared Euclidean norm of a Vec3.  The source computes
np.linalg.norm([x,y,z]) and compares it with a nonnegative bound; since both
sides are nonnegative that comparison is equivalent to comparing squares, which
stays inside the rationals. -/
def normSq (v : Vec3) : ℚ := v.x ^ 2 + v.y ^ 2 + v.z ^ 2

/-- Python exceptions raised by the embedded code. -/
inductive PyError where
  /-- NameError: name is not defined (an unbound bare identifier). -/
  | nameError (nm : String)
  /-- TypeError, e.g. subscripting None (tft.quaternion_matrix(None)). -/
  | typeError (msg : String)
  /-- AttributeError raised by StaticTransforms.coord_transform when no
  attribute R_fin2fout exists; the message names both frames. -/
  | noStaticTransform (fin fout : String)
  /-- AttributeError raised when an object has no attribute of the given
  name (class name, attribute name). -/
  | noAttribute (cls attr : String)
  deriving DecidableEq, Repr

/-- Constants.RATE from translation_control.py, in Hz. -/
def Constants.RATE : ℕ := 10

/-- Constants.MAX_DISTANCE from translation_control.py, in m. -/
def Constants.MAX_DISTANCE : ℚ := 2

/-- Constants.MAX_SPEED from translation_control.py, in m/s. -/
def Constants.MAX_SPEED : ℚ := 0.5

/-- Constants.MIN_SPEED from translation_control.py, in m/s. -/
def Constants.MIN_SPEED : ℚ := 0.01

/-- Rational 3x3 matrix (the acting block of the homogeneous 4x4 matrices of
tf.transformations). -/
structure Mat3 where
  a00 : ℚ
  a01 : ℚ
  a02 : ℚ
  a10 : ℚ
  a11 : ℚ
  a12 : ℚ
  a20 : ℚ
  a21 : ℚ
  a22 : ℚ
  deriving DecidableEq, Repr

/-- Matrix-vector product: np.dot(R, v4) restricted to the first three
coordinates, the fourth input coordinate being the padded 0. -/
def Mat3.mulVec (M : Mat3) (v : Vec3) : Vec3 :=
  ⟨M.a00 * v.x + M.a01 * v.y + M.a02 * v.z,
   M.a10 * v.x + M.a11 * v.y + M.a12 * v.z,
   M.a20 * v.x + M.a21 * v.y + M.a22 * v.z⟩

/-- Matrix transpose (the .T of numpy). -/
def Mat3.transpose (M : Mat3) : Mat3 :=
  ⟨M.a00, M.a10, M.a20,
   M.a01, M.a11, M.a21,
   M.a02, M.a12, M.a22⟩

/-- Matrix product: tft.concatenate_matrices(A, B) = A @ B. -/
def Mat3.mul (A B : Mat3) : Mat3 :=
  ⟨A.a00 * B.a00 + A.a01 * B.a10 + A.a02 * B.a20,
   A.a00 * B.a01 + A.a01 * B.a11 + A.a02 * B.a21,
   A.a00 * B.a02 + A.a01 * B.a12 + A.a02 * B.a22,
   A.a10 * B.a00 + A.a11 * B.a10 + A.a12 * B.a20,
   A.a10 * B.a01 + A.a11 * B.a11 + A.a12 * B.a21,
   A.a10 * B.a02 + A.a11 * B.a12 + A.a12 * B.a22,
   A.a20 * B.a00 + A.a21 * B.a10 + A.a22 * B.a20,
   A.a20 * B.a01 + A.a21 * B.a11 + A.a22 * B.a21,
   A.a20 * B.a02 + A.a21 * B.a12 + A.a22 * B.a22⟩

/-- Identity matrix: tft.identity_matrix(). -/
def identity3 : Mat3 := ⟨1, 0, 0, 0, 1, 0, 0, 0, 1⟩

/-- tft.rotation_matrix(np.pi, (1,0,0)): 180-degree rotation about x. -/
def rotX_pi : Mat3 := ⟨1, 0, 0, 0, -1, 0, 0, 0, -1⟩

/-- StaticTransforms.R_lenu2lned. -/
def R_lenu2lned : Mat3 := rotX_pi

/-- StaticTransforms.R_bu2bd. -/
def R_bu2bd : Mat3 := rotX_pi

/-- StaticTransforms.R_dc2bd. -/
def R_dc2bd : Mat3 := identity3

/-- StaticTransforms.R_fc2bd. -/
def R_fc2bd : Mat3 := ⟨0, 0, 1, 1, 0, 0, 0, 1, 0⟩

/-- StaticTransforms.R_lned2lenu = R_lenu2lned.T. -/
def R_lned2lenu : Mat3 := R_lenu2lned.transpose

/-- StaticTransforms.R_bd2bu = R_bu2bd.T. -/
def R_bd2bu : Mat3 := R_bu2bd.transpose

/-- StaticTransforms.R_bd2dc = R_dc2bd.T. -/
def R_bd2dc : Mat3 := R_dc2bd.transpose

/-- StaticTransforms.R_bd2fc = R_fc2bd.T. -/
def R_bd2fc : Mat3 := R_fc2bd.transpose

/-- StaticTransforms.R_dc2fc = concatenate_matrices(R_bd2fc, R_dc2bd). -/
def R_dc2fc : Mat3 := R_bd2fc.mul R_dc2bd

/-- StaticTransforms.R_fc2dc = R_dc2fc.T. -/
def R_fc2dc : Mat3 := R_dc2fc.transpose

/-- StaticTransforms.R_dc2bu = concatenate_matrices(R_bd2bu, R_dc2bd). -/
def R_dc2bu : Mat3 := R_bd2bu.mul R_dc2bd

/-- StaticTransforms.R_bu2dc = R_dc2bu.T. -/
def R_bu2dc : Mat3 := R_dc2bu.transpose

/-- StaticTransforms.R_fc2bu = concatenate_matrices(R_bd2bu, R_fc2bd). -/
def R_fc2bu : Mat3 := R_bd2bu.mul R_fc2bd

/-- StaticTransforms.R_bu2fc = R_fc2bu.T. -/
def R_bu2fc : Mat3 := R_fc2bu.transpose

/-- Models getattr(self, R_str) for R_str built as R_fin2fout: an entry exists
exactly for the fourteen class attributes R_x2y that StaticTransforms defines;
every other pair has no attribute. -/
def R_lookup (fin fout : String) : Option Mat3 :=
  match fin, fout with
  | "lenu", "lned" => some R_lenu2lned
  | "bu", "bd" => some R_bu2bd
  | "dc", "bd" => some R_dc2bd
  | "fc", "bd" => some R_fc2bd
  | "lned", "lenu" => some R_lned2lenu
  | "bd", "bu" => some R_bd2bu
  | "bd", "dc" => some R_bd2dc
  | "bd", "fc" => some R_bd2fc
  | "dc", "fc" => some R_dc2fc
  | "fc", "dc" => some R_fc2dc
  | "dc", "bu" => some R_dc2bu
  | "bu", "dc" => some R_bu2dc
  | "fc", "bu" => some R_fc2bu
  | "bu", "fc" => some R_bu2fc
  | _, _ => none

/-- StaticTransforms.coord_transform: transform vector v represented in frame
fin into its representation in frame fout.  For fin = fout the source
multiplies by the identity matrix, returning the vector unchanged; otherwise it
looks up the attribute R_fin2fout and raises AttributeError, naming both
frames, when that attribute does not exist. -/
def coord_transform (v : Vec3) (fin fout : String) : Except PyError Vec3 :=
  if fin = fout then
    .ok (identity3.mulVec v)
  else
    match R_lookup fin fout with
    | some R => .ok (R.mulVec v)
    | none => .error (.noStaticTransform fin fout)

/-- Quaternion in tf.transformations order (x, y, z, w). -/
structure Quat where
  x : ℚ
  y : ℚ
  z : ℚ
  w : ℚ
  deriving DecidableEq, Repr

/-- The _EPS constant of tf.transformations: numpy.finfo(float).eps * 4.0,
i.e. 2 to the power -50. -/
def tftEPS : ℚ := 1 / 2 ^ 50

/-- tft.quaternion_matrix: rotation matrix from quaternion (x, y, z, w).  The
source computes nq = dot(q, q), returns the identity when nq < _EPS, and
otherwise scales q by sqrt(2/nq) before forming the outer product, so every
matrix entry is 2/nq times a product of two quaternion components: exact
rational arithmetic. -/
def quaternion_matrix (q : Quat) : Mat3 :=
  let nq := q.x ^ 2 + q.y ^ 2 + q.z ^ 2 + q.w ^ 2
  if nq < tftEPS then identity3
  else
    let s := 2 / nq
    ⟨1 - s * (q.y ^ 2 + q.z ^ 2), s * (q.x * q.y - q.w * q.z), s * (q.x * q.z + q.w * q.y),
     s * (q.x * q.y + q.w * q.z), 1 - s * (q.x ^ 2 + q.z ^ 2), s * (q.y * q.z - q.w * q.x),
     s * (q.x * q.z - q.w * q.y), s * (q.y * q.z + q.w * q.x), 1 - s * (q.x ^ 2 + q.y ^ 2)⟩

/-- get_lenu_velocity from translation_control.py: transform a vector
represented in frame fin into the local ENU world frame, given the stored
body-up-to-lenu quaternion (None while no pose observation has arrived).
For fin = "lenu" the vector is returned unchanged; for fin = "lned" only the
static lned-to-lenu rotation is applied; otherwise the source first evaluates
tft.quaternion_matrix(q_bu_lenu), which raises TypeError when the stored
quaternion is still None, and then resolves fin to body-up through the static
table before applying the rotation. -/
def get_lenu_velocity (q_bu_lenu : Option Quat) (v : Vec3) (fin : String) :
    Except PyError Vec3 :=
  if fin = "lenu" then
    .ok v
  else if fin = "lned" then
    coord_transform v "lned" "lenu"
  else
    match q_bu_lenu with
    | none => .error (.typeError "NoneType object is not subscriptable")
    | some q =>
      let R_bu2lenu := quaternion_matrix q
      match coord_transform v fin "bu" with
      | .error e => .error e
      | .ok v_bu => .ok (R_bu2lenu.mulVec v_bu)

/-- The _VELOCITY_COMMAND_LIMIT constant of dispatcher.py, in m/s. -/
def VELOCITY_COMMAND_LIMIT : ℚ := 0.09

/-- Dispatcher.velocity_command_callback from dispatcher.py: for each incoming
Twist message it builds one limited Twist (starting from the zero message),
clamps the forward component to the limit by the if / elif / else chain,
leaves the lateral and vertical components at zero, and publishes the result.
The model returns the single published message. -/
def velocity_command_callback (msg : Vec3) : Vec3 :=
  let fwd :=
    if VELOCITY_COMMAND_LIMIT < msg.x then VELOCITY_COMMAND_LIMIT
    else if msg.x < -VELOCITY_COMMAND_LIMIT then -VELOCITY_COMMAND_LIMIT
    else msg.x
  ⟨fwd, 0, 0⟩

/-- Result of running the maneuver executor: the successive values assigned to
the shared setpoint slot (self.vel_setpoint_bu_lenu__lenu), in order; the
uncaught exception, if one was raised; and the boundary index reached, used to
consult the abort condition (rospy.is_shutdown() or mode no longer OFFBOARD)
at successive sample boundaries. -/
structure ExecResult where
  writes : List Vec3
  err : Option PyError
  next : ℕ
  deriving DecidableEq, Repr

/-- Loop body of TranslationController.execute_maneuver over the remaining
samples of the current maneuver.  Each iteration: (1) assigns a fresh Twist()
to the slot (a zero write); (2) transforms the sample with get_lenu_velocity,
an uncaught exception propagating immediately; (3) stores the transformed
vector component-wise into the slot (a write of the transformed vector);
(4) checks the abort condition at the sample boundary and breaks when it
holds.  After the loop the slot is set back to a fresh Twist() (a final zero
write).  The abort condition is modelled as a predicate on the global boundary
index. -/
def exec_man_aux (q : Option Quat) (ref : String) (abort : ℕ → Bool) :
    List Vec3 → ℕ → ExecResult
  | [], i => ⟨[zeroVec], none, i⟩
  | v :: rest, i =>
    match get_lenu_velocity q v ref with
    | .error e => ⟨[zeroVec], some e, i⟩
    | .ok w =>
      if abort i then
        ⟨[zeroVec, w, zeroVec], none, i + 1⟩
      else
        let r := exec_man_aux q ref abort rest (i + 1)
        ⟨zeroVec :: w :: r.writes, r.err, r.next⟩

/-- TranslationController.execute_maneuver, applied to the list of samples the
maneuver iterator yields. -/
def execute_maneuver (q : Option Quat) (ref : String) (samples : List Vec3)
    (abort : ℕ → Bool) (i : ℕ) : ExecResult :=
  exec_man_aux q ref abort samples i

/-- A configured maneuver as the executor consumes it: the reference frame tag
(man.ref) and the samples its iterator yields. -/
structure Maneuver where
  ref : String
  samples : List Vec3
  deriving DecidableEq, Repr

/-- The OFFBOARD branch of state_cb: for man in self.maneuvers:
self.execute_maneuver(man).  An uncaught exception from execute_maneuver
propagates out of the callback, so no later maneuver runs after it. -/
def run_maneuvers (q : Option Quat) (abort : ℕ → Bool) :
    List Maneuver → ℕ → ExecResult
  | [], i => ⟨[], none, i⟩
  | m :: ms, i =>
    let r := execute_maneuver q m.ref m.samples abort i
    match r.err with
    | some e => ⟨r.writes, some e, r.next⟩
    | none =>
      let r2 := run_maneuvers q abort ms r.next
      ⟨r.writes ++ r2.writes, r2.err, r2.next⟩

/-- One tick of run_streaming (start_streaming_offboard_points): read the slot,
compare its Euclidean norm with Constants.MAX_SPEED (modelled by comparing
squares, equivalent since both sides are nonnegative), and publish the slot
vector unchanged when the norm does not exceed the limit.  When the norm
exceeds the limit the source rescales with the bare name MAX_SPEED, which is
bound nowhere at module scope (the constant lives only on the Constants
class), so a NameError is raised and nothing is published. -/
def run_streaming_tick (slot : Vec3) : Except PyError Vec3 :=
  if Constants.MAX_SPEED ^ 2 < normSq slot then
    .error (.nameError "MAX_SPEED")
  else
    .ok slot

/-- Mode-tracking state of TranslationController: the mode strings of
self.current_state and self.prev_state. -/
structure ControllerModes where
  current : String
  prev : String
  deriving DecidableEq, Repr

/-- Mode-update prefix of state_cb: self.prev_state = deepcopy of
self.current_state, then self.current_state = msg. -/
def state_cb_modes (s : ControllerModes) (msg : String) : ControllerModes :=
  ⟨msg, s.current⟩

/-- A sequence of mode-update events applied in order. -/
def apply_modes (s : ControllerModes) (ms : List String) : ControllerModes :=
  ms.foldl state_cb_modes s

/-- Iteration of s_man (static maneuver): given the successive elapsed times at
which the while condition is evaluated, yields the fixed vector at every tick
whose elapsed time is below dur, stopping at the first tick that reaches it. -/
def s_man_samples (vel_set : Vec3) (dur : ℚ) (ts : List ℚ) : List Vec3 :=
  (ts.takeWhile (fun t => t < dur)).map (fun _ => vel_set)

/-- The par_man object as built by par_man.__init__: it assigns exactly the
attributes f (the caller-supplied velocity function), ref and domain. -/
structure ParMan where
  f : ℚ → Vec3
  ref : String
  domain : ℚ

/-- Attribute lookup self.dur on a par_man object: __init__ assigns f, ref and
domain and nothing else ever assigns dur, so the lookup finds no value and
raises AttributeError at the use site. -/
def ParMan.durAttr (_ : ParMan) : Option ℚ := none

/-- Iteration of par_man: the while condition of par_man.__iter__ reads
self.dur; when that attribute is absent the first evaluation of the condition
raises AttributeError, before any sample is yielded.  Were the attribute
present, iteration would yield f at the successive elapsed times below it. -/
def par_man_iter (m : ParMan) (ts : List ℚ) : Except PyError (List Vec3) :=
  match m.durAttr with
  | none => .error (.noAttribute "par_man" "dur")
  | some d => .ok ((ts.takeWhile (fun t => t < d)).map m.f)

/-- Per-axis velocity of line_man (smooth-line maneuver), over the reals: the
inner expression of line_man.parametric for displacement component a, duration
dur and elapsed time t. -/
noncomputable def lineVel (a dur t : ℝ) : ℝ :=
  -6 * a / dur ^ 3 * (t * (t - dur))

/-- The parametric function line_man.__init__ installs: lineVel applied to each
displacement component. -/
noncomputable def line_man_f (disp : List ℝ) (dur t : ℝ) : List ℝ :=
  disp.map (fun a => lineVel a dur t)

deriving instance DecidableEq for Except

/-- Writes contributed by a single maneuver when the abort condition holds at
every sample boundary: the first loop iteration zeroes the slot, writes the
transformed head sample, then the boundary check breaks and the final reset
zeroes the slot again; an empty maneuver only performs the final reset, and a
maneuver whose head sample fails to transform only performs the initial zero
write before the exception. -/
def head_writes (q : Option Quat) (m : Maneuver) : List Vec3 :=
  match m.samples with
  | [] => [zeroVec]
  | v :: _ =>
    match get_lenu_velocity q v m.ref with
    | .ok w => [zeroVec, w, zeroVec]
    | .error _ => [zeroVec]

/-- Helper: the executor loop always records at least one slot write (the
final reset on the empty list, the initial zero write otherwise). -/
theorem exec_writes_ne_nil (q : Option Quat) (ref : String) (abort : ℕ → Bool) :
    ∀ (samples : List Vec3) (i : ℕ), (exec_man_aux q ref abort samples i).writes ≠ [] := by
  intro samples
  induction samples with
  | nil => intro i; simp [exec_man_aux]
  | cons v rest ih =>
    intro i
    rcases hv : get_lenu_velocity q v ref with e | w
    · simp [exec_man_aux, hv]
    · by_cases hab : abort i <;> simp [exec_man_aux, hv, hab]

/-- Helper: consing onto a nonempty list leaves its last element unchanged. -/
theorem getLast?_cons_of_ne_nil {α : Type} (a : α) {l : List α} (h : l ≠ []) :
    (a :: l).getLast? = l.getLast? := by
  cases l with
  | nil => exact absurd rfl h
  | cons b t => exact List.getLast?_cons_cons

/-- C1: the claim says each tick publishes the slot vector unchanged when its
norm is at most MAX_SPEED and a uniformly scaled-down vector of norm exactly
MAX_SPEED otherwise.  The code satisfies the first half: at slot (3/10, -1/5, 0),
whose norm is below MAX_SPEED, the tick publishes the slot vector unchanged.
It violates the second half: at slot (3/5, 0, 0), whose squared norm 9/25
exceeds MAX_SPEED squared, the scaling branch references the bare unbound name
MAX_SPEED and raises NameError instead of publishing a scaled vector. -/
theorem C1_speed_limiter_name_error :
    run_streaming_tick ⟨3/10, -1/5, 0⟩ = .ok ⟨3/10, -1/5, 0⟩ ∧
    run_streaming_tick ⟨3/5, 0, 0⟩ = .error (.nameError "MAX_SPEED") ∧
    Constants.MAX_SPEED ^ 2 < normSq ⟨3/5, 0, 0⟩ := by
  refine ⟨?_, ?_, ?_⟩ <;> norm_num [run_streaming_tick, normSq, Constants.MAX_SPEED]

/-- C2 counterexample: with the abort condition true at every sample boundary
(process shutting down from the start), running the configured list of two
one-sample maneuvers in the lenu frame still writes the second maneuver's
sample (2, 0, 0) to the setpoint slot, refuting the claim that no sample from
any later maneuver is ever written after an abort boundary. -/
theorem C2_later_maneuver_still_writes :
    (⟨2, 0, 0⟩ : Vec3) ∈ (run_maneuvers none (fun _ => true)
        [⟨"lenu", [⟨1, 0, 0⟩]⟩, ⟨"lenu", [⟨2, 0, 0⟩]⟩] 0).writes ∧
    (run_maneuvers none (fun _ => true)
        [⟨"lenu", [⟨1, 0, 0⟩]⟩, ⟨"lenu", [⟨2, 0, 0⟩]⟩] 0).writes =
      [zeroVec, ⟨1, 0, 0⟩, zeroVec, zeroVec, ⟨2, 0, 0⟩, zeroVec] := by decide

/-- C2 amended: the break in execute_maneuver aborts only the current
maneuver.  When the abort condition holds at every sample boundary and every
nonempty maneuver's head sample transforms successfully, each maneuver of the
list is still entered in turn and contributes exactly its head writes: the
slot is zeroed, the first transformed sample is written, and the per-sample
boundary check then breaks that maneuver, after which the next maneuver in the
list begins. -/
theorem C2_abort_breaks_only_current_maneuver (q : Option Quat) (mans : List Maneuver) (i : ℕ)
    (h : ∀ m ∈ mans, ∀ v rest, m.samples = v :: rest →
      ∃ w, get_lenu_velocity q v m.ref = Except.ok w) :
    (run_maneuvers q (fun _ => true) mans i).writes = (mans.map (head_writes q)).flatten ∧
    (run_maneuvers q (fun _ => true) mans i).err = none := by
  revert i h
  induction mans with
  | nil => intro i h; simp [run_maneuvers]
  | cons m ms ih =>
    intro i h
    have hrest : ∀ m' ∈ ms, ∀ v rest, m'.samples = v :: rest →
        ∃ w, get_lenu_velocity q v m'.ref = Except.ok w :=
      fun m' hm' => h m' (List.mem_cons_of_mem _ hm')
    rcases hs : m.samples with _ | ⟨v, rest⟩
    · obtain ⟨hw2, he2⟩ := ih i hrest
      simp [run_maneuvers, execute_maneuver, exec_man_aux, hs, head_writes, hw2, he2]
    · obtain ⟨w, hw⟩ := h m (List.mem_cons_self m ms) v rest hs
      obtain ⟨hw2, he2⟩ := ih (i + 1) hrest
      simp [run_maneuvers, execute_maneuver, exec_man_aux, hs, hw, head_writes, hw2, he2]

/-- C2 amended, witness: concrete two-maneuver list in the lenu frame under an
always-true abort condition. -/
theorem C2_abort_breaks_only_current_maneuver_witness :
    (run_maneuvers none (fun _ => true)
        [⟨"lenu", [⟨1, 0, 0⟩]⟩, ⟨"lenu", [⟨2, 0, 0⟩, ⟨3, 0, 0⟩]⟩] 0).writes =
      (([⟨"lenu", [⟨1, 0, 0⟩]⟩, ⟨"lenu", [⟨2, 0, 0⟩, ⟨3, 0, 0⟩]⟩] : List Maneuver).map
        (head_writes none)).flatten ∧
    (run_maneuvers none (fun _ => true)
        [⟨"lenu", [⟨1, 0, 0⟩]⟩, ⟨"lenu", [⟨2, 0, 0⟩, ⟨3, 0, 0⟩]⟩] 0).err = none :=
  C2_abort_breaks_only_current_maneuver none
    [⟨"lenu", [⟨1, 0, 0⟩]⟩, ⟨"lenu", [⟨2, 0, 0⟩, ⟨3, 0, 0⟩]⟩] 0
    (by
      intro m hm v rest hs
      simp only [List.mem_cons, List.not_mem_nil, or_false] at hm
      rcases hm with rfl | rfl
      · exact ⟨v, rfl⟩
      · exact ⟨v, rfl⟩)

/-- C3 counterexample: with no pose observation (stored quaternion None) and a
body-relative sample in the bu frame, execute_maneuver does not drop the
sample and continue: the setpoint slot is first reset to zero (so there is a
slot update that tick), the TypeError raised inside the transform is not
caught, the remaining sample (2, 0, 0) is never executed, and the end-of-
maneuver reset is skipped, refuting both the slot-untouched and the
does-not-crash parts of the claim. -/
theorem C3_orientation_none_crashes_maneuver :
    execute_maneuver none "bu" [⟨1, 0, 0⟩, ⟨2, 0, 0⟩] (fun _ => false) 0 =
      ⟨[zeroVec], some (.typeError "NoneType object is not subscriptable"), 0⟩ := by decide

/-- C3 amended: when the stored orientation is still None and a sample is
expressed in any frame other than the world frames lenu and lned, executing
the maneuver writes a single zero to the setpoint slot (the per-iteration
reset that precedes the transform) and then raises TypeError out of
execute_maneuver: the sample is not dropped-and-skipped, the rest of the
maneuver never runs, and the exception propagates to the caller. -/
theorem C3_orientation_none_uncaught (fin : String) (v : Vec3) (rest : List Vec3)
    (abort : ℕ → Bool) (i : ℕ) (h1 : fin ≠ "lenu") (h2 : fin ≠ "lned") :
    execute_maneuver none fin (v :: rest) abort i =
      ⟨[zeroVec], some (.typeError "NoneType object is not subscriptable"), i⟩ := by
  simp [execute_maneuver, exec_man_aux, get_lenu_velocity, h1, h2]

/-- C3 amended, witness: the body-up frame with a concrete sample. -/
theorem C3_orientation_none_uncaught_witness :
    ("bu" ≠ "lenu") ∧ ("bu" ≠ "lned") ∧
    execute_maneuver none "bu" [⟨1, 0, 0⟩] (fun _ => false) 0 =
      ⟨[zeroVec], some (.typeError "NoneType object is not subscriptable"), 0⟩ :=
  ⟨by decide, by decide,
    C3_orientation_none_uncaught "bu" ⟨1, 0, 0⟩ [] (fun _ => false) 0 (by decide) (by decide)⟩

/-- C4 counterexample: for the marker frame m, which has no entry in the
static rotation table, coord_transform fails with an AttributeError naming
both frames (the first half of the claim holds), but maneuver execution does
not treat the sample as a no-op tick: the slot is zeroed by the per-iteration
reset, the error propagates uncaught out of execute_maneuver, and the second
sample (5, 0, 0) never executes, refuting the skipped-sample half. -/
theorem C4_unknown_frame_crashes_maneuver :
    coord_transform ⟨1, 0, 0⟩ "m" "bu" = .error (.noStaticTransform "m" "bu") ∧
    execute_maneuver (some ⟨0, 0, 0, 1⟩) "m" [⟨1, 0, 0⟩, ⟨5, 0, 0⟩] (fun _ => false) 0 =
      ⟨[zeroVec], some (.noStaticTransform "m" "bu"), 0⟩ := by decide

/-- C4 amended: when a sample frame is none of lenu, lned, bu and the pair
(frame, bu) has no entry in the static rotation table, the transform fails
with an AttributeError naming both frames of the failed pair, and maneuver
execution does not catch it: the slot holds the zero written before the
transform, the exception propagates out of execute_maneuver, and no later
sample of the maneuver runs. -/
theorem C4_unknown_frame_uncaught (qv : Quat) (fin : String) (v : Vec3) (rest : List Vec3)
    (abort : ℕ → Bool) (i : ℕ) (h1 : fin ≠ "lenu") (h2 : fin ≠ "lned") (h3 : fin ≠ "bu")
    (h4 : R_lookup fin "bu" = none) :
    coord_transform v fin "bu" = .error (.noStaticTransform fin "bu") ∧
    execute_maneuver (some qv) fin (v :: rest) abort i =
      ⟨[zeroVec], some (.noStaticTransform fin "bu"), i⟩ := by
  have hct : coord_transform v fin "bu" = .error (.noStaticTransform fin "bu") := by
    simp [coord_transform, h3, h4]
  exact ⟨hct, by simp [execute_maneuver, exec_man_aux, get_lenu_velocity, h1, h2, hct]⟩

/-- C4 amended, witness: the marker frame m with the identity quaternion. -/
theorem C4_unknown_frame_uncaught_witness :
    ("m" ≠ "lenu") ∧ ("m" ≠ "lned") ∧ ("m" ≠ "bu") ∧ R_lookup "m" "bu" = none ∧
    (coord_transform ⟨1, 0, 0⟩ "m" "bu" = .error (.noStaticTransform "m" "bu") ∧
      execute_maneuver (some ⟨0, 0, 0, 1⟩) "m" [⟨1, 0, 0⟩] (fun _ => false) 0 =
        ⟨[zeroVec], some (.noStaticTransform "m" "bu"), 0⟩) :=
  ⟨by decide, by decide, by decide, by decide,
    C4_unknown_frame_uncaught ⟨0, 0, 0, 1⟩ "m" ⟨1, 0, 0⟩ [] (fun _ => false) 0
      (by decide) (by decide) (by decide) (by decide)⟩

/-- C5: the claim says iterating a parametric maneuver yields f at the elapsed
times below the domain supplied at construction and stops exactly at the
domain.  The code cannot do either: par_man.__init__ stores the bound in the
attribute domain, while par_man.__iter__ reads the attribute dur, which is
never assigned, so the very first evaluation of the loop condition raises
AttributeError and iteration yields nothing, for every function, domain,
frame tag and sampling schedule. -/
theorem C5_par_man_iteration_raises (f : ℚ → Vec3) (domain : ℚ) (ref : String) (ts : List ℚ) :
    par_man_iter ⟨f, ref, domain⟩ ts = .error (.noAttribute "par_man" "dur") := rfl

/-- C6: for the smooth-line maneuver with per-axis displacement a and duration
d greater than 0, the yielded per-axis velocity is the closed form of
line_man.parametric, it vanishes at elapsed times 0 and d, and its integral
over the interval from 0 to d equals the displacement component a. -/
theorem C6_line_man_profile (a d : ℝ) (hd : 0 < d) :
    lineVel a d 0 = 0 ∧ lineVel a d d = 0 ∧ (∫ t in (0:ℝ)..d, lineVel a d t) = a := by
  have hd0 : d ≠ 0 := ne_of_gt hd
  refine ⟨by simp [lineVel], by simp [lineVel], ?_⟩
  have hfun : (fun t : ℝ => lineVel a d t) =
      fun t : ℝ => (-6 * a / d ^ 3) * t ^ 2 - (-6 * a / d ^ 3 * d) * t := by
    funext t
    simp only [lineVel]
    ring
  rw [hfun, intervalIntegral.integral_sub
    ((by continuity : Continuous fun t : ℝ => (-6 * a / d ^ 3) * t ^ 2).intervalIntegrable 0 d)
    ((by continuity : Continuous fun t : ℝ => (-6 * a / d ^ 3 * d) * t).intervalIntegrable 0 d)]
  rw [intervalIntegral.integral_const_mul, intervalIntegral.integral_const_mul,
    integral_pow, integral_id]
  field_simp
  ring

/-- C6 witness: unit displacement over unit duration. -/
theorem C6_line_man_profile_witness :
    (0:ℝ) < 1 ∧
    (lineVel 1 1 0 = 0 ∧ lineVel 1 1 1 = 0 ∧ (∫ t in (0:ℝ)..1, lineVel 1 1 t) = 1) :=
  ⟨one_pos, C6_line_man_profile 1 1 one_pos⟩

/-- C7: for every incoming velocity command, the dispatcher publishes exactly
one message whose forward component is the x component of the input clamped to
the symmetric range given by the 0.09 m/s limit and whose lateral and vertical
components are zero; the model is a pure function of the single message, so
the output depends on no internal state, frame transform or flight mode. -/
theorem C7_velocity_command_clamp (msg : Vec3) :
    velocity_command_callback msg =
      ⟨max (-VELOCITY_COMMAND_LIMIT) (min VELOCITY_COMMAND_LIMIT msg.x), 0, 0⟩ := by
  have hL : (0 : ℚ) < VELOCITY_COMMAND_LIMIT := by norm_num [VELOCITY_COMMAND_LIMIT]
  simp only [velocity_command_callback]
  split_ifs with h1 h2
  · rw [min_eq_left h1.le, max_eq_right (by linarith)]
  · rw [min_eq_right (by linarith), max_eq_left (by linarith)]
  · push_neg at h1 h2
    rw [min_eq_right h1, max_eq_right h2]

/-- C8: whenever execute_maneuver finishes without an uncaught exception,
whether by running every sample to normal completion or by breaking at a
sample boundary on shutdown or flight-mode change, the last value written to
the setpoint slot is the zero vector: the slot is reset before the controller
proceeds to, or abandons, the next maneuver. -/
theorem C8_slot_reset_after_maneuver (q : Option Quat) (ref : String) (samples : List Vec3)
    (abort : ℕ → Bool) (i : ℕ)
    (h : (execute_maneuver q ref samples abort i).err = none) :
    (execute_maneuver q ref samples abort i).writes.getLast? = some zeroVec := by
  revert i h
  induction samples with
  | nil => intro i h; simp [execute_maneuver, exec_man_aux]
  | cons v rest ih =>
    intro i h
    rcases hv : get_lenu_velocity q v ref with e | w
    · simp [execute_maneuver, exec_man_aux, hv] at h
    · simp only [execute_maneuver, exec_man_aux, hv] at h ⊢
      by_cases hab : abort i
      · simp [hab]
      · simp only [hab, Bool.false_eq_true, if_false] at h ⊢
        have hne := exec_writes_ne_nil q ref abort rest (i + 1)
        rw [List.getLast?_cons_cons, getLast?_cons_of_ne_nil w hne]
        exact ih (i + 1) h

/-- C8 witness: the constant maneuver of the spec scenario, velocity
(0, -0.2, 0) for 5 seconds, iterated at integer-second sample times in the
lenu frame with no abort: it runs to completion and the slot ends at zero. -/
theorem C8_slot_reset_after_maneuver_witness :
    (execute_maneuver none "lenu" (s_man_samples ⟨0, -1/5, 0⟩ 5 [0, 1, 2, 3, 4, 5])
        (fun _ => false) 0).err = none ∧
    (execute_maneuver none "lenu" (s_man_samples ⟨0, -1/5, 0⟩ 5 [0, 1, 2, 3, 4, 5])
        (fun _ => false) 0).writes.getLast? = some zeroVec :=
  ⟨by decide,
    C8_slot_reset_after_maneuver none "lenu"
      (s_man_samples ⟨0, -1/5, 0⟩ 5 [0, 1, 2, 3, 4, 5]) (fun _ => false) 0 (by decide)⟩

/-- C9: after any mode updates followed by one final update m, the stored
previous mode equals the value the current mode held immediately before that
final update (and the current mode equals m); with at least two updates this
is the second-to-last applied value, and with a single update it is the
initial mode held before any update. -/
theorem C9_prev_mode_invariant (s : ControllerModes) (ms : List String) (m : String) :
    apply_modes s (ms ++ [m]) = ⟨m, (apply_modes s ms).current⟩ := by
  simp [apply_modes, List.foldl_append, state_cb_modes]

/-- C10: the world-frame branches of get_lenu_velocity never consult the
quaternion argument: for every stored quaternion value, including None, a
lenu-frame vector is returned unchanged and an lned-frame vector is mapped
through the fixed lned-to-lenu static rotation only, and either call yields
the same result as the call with the quaternion still None. -/
theorem C10_world_frames_ignore_quaternion (q : Option Quat) (v : Vec3) :
    get_lenu_velocity q v "lenu" = .ok v ∧
    get_lenu_velocity q v "lned" = .ok (R_lned2lenu.mulVec v) ∧
    get_lenu_velocity q v "lenu" = get_lenu_velocity none v "lenu" ∧
    get_lenu_velocity q v "lned" = get_lenu_velocity none v "lned" :=
  ⟨rfl, rfl, rfl, rfl⟩
